import Mathlib

/-!
Verification of the `starlette_jhalog` package top-level module
(`src/starlette_jhalog/__init__.py`).

The module consists of a docstring, two from-import statements pulling
names out of the internal submodules `_middleware` and `_exceptions`,
and an assignment of the export tuple `__all__`.  We embed the module
as a list of statements together with an operational semantics of
Python's module loading restricted to the statement forms that occur:
a from-import looks the submodule up in an environment, binds the
submodule itself as an attribute of the package (CPython sets a
submodule as an attribute of its parent package when it is imported),
then binds each requested name to the object the submodule defines,
raising an import error when the submodule is unavailable or does not
define the name.  Objects are identified by numeric identities so that
identity of bindings can be expressed.
-/

namespace StarletteJhalog

/-- A value a name can be bound to in the package namespace: an object
coming from a submodule (identified by a numeric identity), a submodule
bound as a package attribute, a plain string (the docstring), or a tuple
of strings (the export list). -/
inductive Value where
  | obj : Nat → Value
  | moduleRef : String → Value
  | str : String → Value
  | strTuple : List String → Value
deriving DecidableEq

/-- A module namespace: an association list from names to values, most
recent binding first (so rebinding shadows). -/
abbrev NS := List (String × Value)

/-- Look a name up in a namespace, returning the most recent binding. -/
def NS.lookupN : NS → String → Option Value
  | [], _ => none
  | (k, v) :: rest, n => if k = n then some v else NS.lookupN rest n

/-- The list of names bound in a namespace. -/
def nsNames (ns : NS) : List String := ns.map Prod.fst

/-- Bind a name in a namespace (Python assignment / import binding). -/
def bindName (ns : NS) (n : String) (v : Value) : NS := (n, v) :: ns

/-- An internal submodule, abstracted to the mapping from the names it
defines to the identities of the objects they denote. -/
structure Submodule where
  defs : List (String × Nat)
deriving DecidableEq

/-- Look a name up among a submodule's definitions. -/
def lookupDef : List (String × Nat) → String → Option Nat
  | [], _ => none
  | (k, v) :: rest, n => if k = n then some v else lookupDef rest n

/-- The import environment: which internal submodules can be imported
and what they define.  A submodule that is absent or whose own load
fails is modelled as `none`. -/
abbrev Env := String → Option Submodule

/-- An import error, as raised by a failing from-import: either the
module cannot be imported at all, or it does not define a requested
name. -/
inductive ImportErr where
  | moduleNotFound : String → ImportErr
  | cannotImportName : String → String → ImportErr
deriving DecidableEq

/-- The statement forms occurring in the package's `__init__` module:
the docstring, `from starlette_jhalog.<m> import n1, ...`, and the
assignment of the `__all__` tuple. -/
inductive Stmt where
  | docstring : String → Stmt
  | fromImport : String → List String → Stmt
  | assignAll : List String → Stmt

/-- Loader state: the import environment together with the package
namespace under construction. -/
structure State where
  env : Env
  ns : NS

/-- Bind each requested name of a from-import to the object the
submodule defines for it, failing with an import error at the first
name the submodule does not define. -/
def importNames (sm : Submodule) (m : String) : List String → NS → Except ImportErr NS
  | [], ns => .ok ns
  | n :: rest, ns =>
    match lookupDef sm.defs n with
    | none => .error (.cannotImportName m n)
    | some i => importNames sm m rest (bindName ns n (.obj i))

/-- Execute one statement of the module body.  A docstring binds
`__doc__`; a from-import resolves the submodule in the environment,
binds it as a package attribute, then binds the requested names; the
`__all__` assignment binds the export tuple. -/
def execStmt (s : State) : Stmt → Except ImportErr State
  | .docstring d => .ok { s with ns := bindName s.ns "__doc__" (.str d) }
  | .fromImport m names =>
    match s.env m with
    | none => .error (.moduleNotFound m)
    | some sm =>
      match importNames sm m names (bindName s.ns m (.moduleRef m)) with
      | .error e => .error e
      | .ok ns2 => .ok { s with ns := ns2 }
  | .assignAll names => .ok { s with ns := bindName s.ns "__all__" (.strTuple names) }

/-- Execute the statements of a module body in order, stopping at the
first import error. -/
def execStmts (s : State) : List Stmt → Except ImportErr State
  | [] => .ok s
  | st :: rest =>
    match execStmt s st with
    | .error e => .error e
    | .ok s2 => execStmts s2 rest

/-- The docstring of the package module. -/
def docText : String :=
  "Jhalog (JSON HTTP Access Log) middleware for Starlette/FastAPI."

/-- The export tuple assigned to `__all__` in the source. -/
def declaredAll : List String := ["JhalogMiddleware", "HTTPException", "get_logger"]

/-- The body of `src/starlette_jhalog/__init__.py`, statement by
statement: the docstring, the from-import of JhalogMiddleware and
get_logger out of `_middleware`, the from-import of HTTPException out
of `_exceptions`, and the `__all__` assignment. -/
def initStmts : List Stmt :=
  [ .docstring docText,
    .fromImport "_middleware" ["JhalogMiddleware", "get_logger"],
    .fromImport "_exceptions" ["HTTPException"],
    .assignAll declaredAll ]

/-- Load the package in a given import environment: run the module body
on an empty namespace and return the resulting package namespace, or
the import error that aborted the load. -/
def loadPackage (env : Env) : Except ImportErr NS :=
  match execStmts ⟨env, []⟩ initStmts with
  | .error e => .error e
  | .ok s => .ok s.ns

/-- The modules a run of the module body attempts to import, in order:
a from-import is recorded when it is reached, and execution stops at
the first import error. -/
def execTrace (s : State) : List Stmt → List String
  | [] => []
  | st :: rest =>
    match st with
    | Stmt.fromImport m _ =>
      match execStmt s st with
      | .error _ => [m]
      | .ok s2 => m :: execTrace s2 rest
    | _ =>
      match execStmt s st with
      | .error _ => []
      | .ok s2 => execTrace s2 rest

/-- The submodule imports attempted when loading the package in a given
environment. -/
def attemptedImports (env : Env) : List String := execTrace ⟨env, []⟩ initStmts

/-- The pairs (submodule, name) imported by the module body, in source
order. -/
def fromImportPairs : List Stmt → List (String × String)
  | [] => []
  | Stmt.fromImport m names :: rest => (names.map fun n => (m, n)) ++ fromImportPairs rest
  | _ :: rest => fromImportPairs rest

/-- The submodules the module body imports from, in source order. -/
def importedModules : List Stmt → List String
  | [] => []
  | Stmt.fromImport m _ :: rest => m :: importedModules rest
  | _ :: rest => importedModules rest

/-- A concrete import environment in which both internal submodules are
importable and define the referenced names, with distinct object
identities. -/
def envOK : Env := fun m =>
  if m = "_middleware" then some ⟨[("JhalogMiddleware", 10), ("get_logger", 11)]⟩
  else if m = "_exceptions" then some ⟨[("HTTPException", 20)]⟩
  else none

/-- The package namespace produced by a successful load in `envOK`. -/
def nsOK : NS :=
  [ ("__all__", Value.strTuple declaredAll),
    ("HTTPException", Value.obj 20),
    ("_exceptions", Value.moduleRef "_exceptions"),
    ("get_logger", Value.obj 11),
    ("JhalogMiddleware", Value.obj 10),
    ("_middleware", Value.moduleRef "_middleware"),
    ("__doc__", Value.str docText) ]

/-- A concrete import environment in which no submodule is importable. -/
def envBad : Env := fun _ => none

/-- When the module body runs to completion, the environment had to
resolve both submodules and every referenced name, the environment
component of the loader state is unchanged, and the resulting package
namespace is exactly the bindings made by the four statements. -/
theorem execStmts_ok_shape (env : Env) (s2 : State)
    (h : execStmts ⟨env, []⟩ initStmts = .ok s2) :
    ∃ smM smE i j k,
      env "_middleware" = some smM ∧ env "_exceptions" = some smE ∧
      lookupDef smM.defs "JhalogMiddleware" = some i ∧
      lookupDef smM.defs "get_logger" = some j ∧
      lookupDef smE.defs "HTTPException" = some k ∧
      s2.env = env ∧
      s2.ns = [ ("__all__", Value.strTuple declaredAll),
                ("HTTPException", Value.obj k),
                ("_exceptions", Value.moduleRef "_exceptions"),
                ("get_logger", Value.obj j),
                ("JhalogMiddleware", Value.obj i),
                ("_middleware", Value.moduleRef "_middleware"),
                ("__doc__", Value.str docText) ] := by
  rcases hM : env "_middleware" with _ | smM
  · simp [initStmts, execStmts, execStmt, hM] at h
  · rcases h1 : lookupDef smM.defs "JhalogMiddleware" with _ | i
    · simp [initStmts, execStmts, execStmt, importNames, hM, h1] at h
    · rcases h2 : lookupDef smM.defs "get_logger" with _ | j
      · simp [initStmts, execStmts, execStmt, importNames, hM, h1, h2] at h
      · rcases hE : env "_exceptions" with _ | smE
        · simp [initStmts, execStmts, execStmt, importNames, hM, h1, h2, hE] at h
        · rcases h3 : lookupDef smE.defs "HTTPException" with _ | k
          · simp [initStmts, execStmts, execStmt, importNames, hM, h1, h2, hE, h3] at h
          · refine ⟨smM, smE, i, j, k, rfl, rfl, h1, h2, h3, ?_⟩
            simp [initStmts, execStmts, execStmt, importNames, bindName,
              hM, h1, h2, hE, h3] at h
            exact ⟨congrArg State.env h.symm, by rw [← h]⟩

/-- A successful package load determines the environment entries for
both submodules, the object identities of the three referenced names,
and the exact resulting namespace. -/
theorem loadPackage_ok_shape (env : Env) (ns : NS)
    (h : loadPackage env = .ok ns) :
    ∃ smM smE i j k,
      env "_middleware" = some smM ∧ env "_exceptions" = some smE ∧
      lookupDef smM.defs "JhalogMiddleware" = some i ∧
      lookupDef smM.defs "get_logger" = some j ∧
      lookupDef smE.defs "HTTPException" = some k ∧
      ns = [ ("__all__", Value.strTuple declaredAll),
             ("HTTPException", Value.obj k),
             ("_exceptions", Value.moduleRef "_exceptions"),
             ("get_logger", Value.obj j),
             ("JhalogMiddleware", Value.obj i),
             ("_middleware", Value.moduleRef "_middleware"),
             ("__doc__", Value.str docText) ] := by
  unfold loadPackage at h
  rcases hX : execStmts ⟨env, []⟩ initStmts with e | s2
  · rw [hX] at h; exact absurd h (by simp)
  · rw [hX] at h
    simp only [Except.ok.injEq] at h
    obtain ⟨smM, smE, i, j, k, hM, hE, h1, h2, h3, _, hns⟩ :=
      execStmts_ok_shape env s2 hX
    exact ⟨smM, smE, i, j, k, hM, hE, h1, h2, h3, h ▸ hns⟩

/-- A load attempt on which either internal submodule is absent or
fails to load (modelled as the environment returning `none`) or does
not define a referenced name. -/
def importFailure (env : Env) : Prop :=
  env "_middleware" = none ∨ env "_exceptions" = none ∨
  (∃ sm, env "_middleware" = some sm ∧
    (lookupDef sm.defs "JhalogMiddleware" = none ∨
     lookupDef sm.defs "get_logger" = none)) ∨
  (∃ sm, env "_exceptions" = some sm ∧
    lookupDef sm.defs "HTTPException" = none)

/-- A load attempt on which the import of `_middleware` fails: the
submodule is absent or fails to load, or it does not define
`JhalogMiddleware` or `get_logger`. -/
def middlewareImportFails (env : Env) : Prop :=
  env "_middleware" = none ∨
  ∃ sm, env "_middleware" = some sm ∧
    (lookupDef sm.defs "JhalogMiddleware" = none ∨
     lookupDef sm.defs "get_logger" = none)

/-- C1: the declared export list of the package is exactly the set of
three names JhalogMiddleware, HTTPException, get_logger: every listed
name is one of the three, each of the three appears, and no other name
appears. -/
theorem declaredAll_exact :
    declaredAll.toFinset =
      ({"JhalogMiddleware", "HTTPException", "get_logger"} : Finset String) := by
  decide

/-- C2, counterexample: in a concrete environment where both submodules
load and define the referenced names, the load succeeds and the
resulting package namespace binds the name `_middleware`, which is not
one of the three exported names, so the namespace does not contain
exactly the three names. -/
theorem ns_not_exactly_three :
    loadPackage envOK = Except.ok nsOK ∧
    "_middleware" ∈ nsNames nsOK ∧ "_middleware" ∉ declaredAll :=
  ⟨rfl, by decide, by decide⟩

/-- C2, amended: after a successful load the package namespace binds
each of the three exported names, but it also binds `__all__`,
`__doc__`, `_middleware` and `_exceptions`; the full list of bound
names is exactly these seven. -/
theorem load_ns_names (env : Env) (ns : NS) (h : loadPackage env = .ok ns) :
    "JhalogMiddleware" ∈ nsNames ns ∧ "HTTPException" ∈ nsNames ns ∧
    "get_logger" ∈ nsNames ns ∧
    nsNames ns = ["__all__", "HTTPException", "_exceptions", "get_logger",
                  "JhalogMiddleware", "_middleware", "__doc__"] := by
  obtain ⟨smM, smE, i, j, k, _, _, _, _, _, hns⟩ := loadPackage_ok_shape env ns h
  subst hns
  refine ⟨?_, ?_, ?_, ?_⟩ <;> simp [nsNames]

/-- C2, amended, witness at the concrete environment `envOK`. -/
theorem load_ns_names_witness :
    "JhalogMiddleware" ∈ nsNames nsOK ∧ "HTTPException" ∈ nsNames nsOK ∧
    "get_logger" ∈ nsNames nsOK ∧
    nsNames nsOK = ["__all__", "HTTPException", "_exceptions", "get_logger",
                    "JhalogMiddleware", "_middleware", "__doc__"] :=
  load_ns_names envOK nsOK rfl

/-- C3: after a successful load, each exported name is bound in the
package namespace to the very object (the same numeric identity) that
its originating submodule defines under the same name: JhalogMiddleware
and get_logger to the definitions of `_middleware`, HTTPException to
the definition of `_exceptions`. -/
theorem load_identity (env : Env) (ns : NS) (smM smE : Submodule)
    (hM : env "_middleware" = some smM) (hE : env "_exceptions" = some smE)
    (h : loadPackage env = .ok ns) :
    ∃ i j k,
      lookupDef smM.defs "JhalogMiddleware" = some i ∧
      NS.lookupN ns "JhalogMiddleware" = some (Value.obj i) ∧
      lookupDef smM.defs "get_logger" = some j ∧
      NS.lookupN ns "get_logger" = some (Value.obj j) ∧
      lookupDef smE.defs "HTTPException" = some k ∧
      NS.lookupN ns "HTTPException" = some (Value.obj k) := by
  obtain ⟨smM2, smE2, i, j, k, hM2, hE2, h1, h2, h3, hns⟩ :=
    loadPackage_ok_shape env ns h
  rw [hM] at hM2
  rw [hE] at hE2
  cases hM2
  cases hE2
  subst hns
  exact ⟨i, j, k, h1, by simp [NS.lookupN], h2, by simp [NS.lookupN],
    h3, by simp [NS.lookupN]⟩

/-- C3, witness at the concrete environment `envOK`. -/
theorem load_identity_witness :
    ∃ i j k,
      lookupDef (Submodule.mk
        [("JhalogMiddleware", 10), ("get_logger", 11)]).defs "JhalogMiddleware"
        = some i ∧
      NS.lookupN nsOK "JhalogMiddleware" = some (Value.obj i) ∧
      lookupDef (Submodule.mk
        [("JhalogMiddleware", 10), ("get_logger", 11)]).defs "get_logger"
        = some j ∧
      NS.lookupN nsOK "get_logger" = some (Value.obj j) ∧
      lookupDef (Submodule.mk [("HTTPException", 20)]).defs "HTTPException"
        = some k ∧
      NS.lookupN nsOK "HTTPException" = some (Value.obj k) :=
  load_identity envOK nsOK ⟨[("JhalogMiddleware", 10), ("get_logger", 11)]⟩
    ⟨[("HTTPException", 20)]⟩ rfl rfl rfl

/-- C4: whenever either internal submodule is absent, fails to load, or
does not define a referenced name, loading the package fails with
an import error; it never succeeds with names silently omitted. -/
theorem load_fails_on_import_failure (env : Env) (h : importFailure env) :
    ∃ e, loadPackage env = .error e := by
  rcases hL : loadPackage env with e | ns
  · exact ⟨e, rfl⟩
  · exfalso
    obtain ⟨smM, smE, i, j, k, hM, hE, h1, h2, h3, _⟩ :=
      loadPackage_ok_shape env ns hL
    rcases h with h | h | ⟨sm, hs, h⟩ | ⟨sm, hs, h⟩
    · rw [h] at hM; exact Option.noConfusion hM
    · rw [h] at hE; exact Option.noConfusion hE
    · rw [hM] at hs
      cases hs
      rcases h with h | h
      · rw [h] at h1; exact Option.noConfusion h1
      · rw [h] at h2; exact Option.noConfusion h2
    · rw [hE] at hs
      cases hs
      rw [h] at h3; exact Option.noConfusion h3

/-- C4, witness: in the environment where no submodule is importable,
the load fails with an import error. -/
theorem load_fails_on_import_failure_witness :
    ∃ e, loadPackage envBad = .error e :=
  load_fails_on_import_failure envBad (Or.inl rfl)

/-- C5: each exported name is imported from its declared submodule of
origin: JhalogMiddleware from `_middleware`, get_logger from the same
`_middleware`, and HTTPException from `_exceptions`; these are all the
from-import pairs of the module body, in source order. -/
theorem from_import_origins :
    fromImportPairs initStmts =
      [("_middleware", "JhalogMiddleware"), ("_middleware", "get_logger"),
       ("_exceptions", "HTTPException")] := rfl

/-- C6: the module body imports from exactly the two internal
submodules `_middleware` and `_exceptions`, and from no other module. -/
theorem imports_exactly_two_modules :
    importedModules initStmts = ["_middleware", "_exceptions"] := rfl

/-- C7: a successful run of the module body leaves the import
environment unchanged and its only effect is binding names in the
package namespace: every name bound in the resulting namespace is one
of the seven bindings made by the four statements. -/
theorem load_frame (env : Env) (s2 : State)
    (h : execStmts ⟨env, []⟩ initStmts = .ok s2) :
    s2.env = env ∧
    ∀ n ∈ nsNames s2.ns,
      n ∈ ["__all__", "HTTPException", "_exceptions", "get_logger",
           "JhalogMiddleware", "_middleware", "__doc__"] := by
  obtain ⟨smM, smE, i, j, k, _, _, _, _, _, henv, hns⟩ :=
    execStmts_ok_shape env s2 h
  refine ⟨henv, ?_⟩
  rw [hns]
  intro n hn
  simpa [nsNames] using hn

/-- C7, witness: running the module body in the concrete environment
`envOK` produces the state with that same environment and the
namespace `nsOK`. -/
theorem load_frame_witness :
    (State.mk envOK nsOK).env = envOK ∧
    ∀ n ∈ nsNames (State.mk envOK nsOK).ns,
      n ∈ ["__all__", "HTTPException", "_exceptions", "get_logger",
           "JhalogMiddleware", "_middleware", "__doc__"] :=
  load_frame envOK ⟨envOK, nsOK⟩ rfl

/-- C8: after a successful load the package namespace contains, besides
the three exported names, the bindings created by the submodule imports
and the module metadata: `_middleware`, `_exceptions`, `__doc__` and
`__all__` are all bound, so the namespace is not limited to the export
list. -/
theorem ns_contains_submodule_attrs (env : Env) (ns : NS)
    (h : loadPackage env = .ok ns) :
    "_middleware" ∈ nsNames ns ∧ "_exceptions" ∈ nsNames ns ∧
    "__doc__" ∈ nsNames ns ∧ "__all__" ∈ nsNames ns ∧
    ¬ (∀ n ∈ nsNames ns, n ∈ declaredAll) := by
  obtain ⟨smM, smE, i, j, k, _, _, _, _, _, hns⟩ := loadPackage_ok_shape env ns h
  subst hns
  refine ⟨by simp [nsNames], by simp [nsNames], by simp [nsNames],
    by simp [nsNames], fun hall => ?_⟩
  have := hall "__doc__" (by simp [nsNames])
  simp [declaredAll] at this

/-- C8, witness at the concrete environment `envOK`. -/
theorem ns_contains_submodule_attrs_witness :
    "_middleware" ∈ nsNames nsOK ∧ "_exceptions" ∈ nsNames nsOK ∧
    "__doc__" ∈ nsNames nsOK ∧ "__all__" ∈ nsNames nsOK ∧
    ¬ (∀ n ∈ nsNames nsOK, n ∈ declaredAll) :=
  ns_contains_submodule_attrs envOK nsOK rfl

/-- C9: in every load the `_middleware` import is attempted first and
the `_exceptions` import, when attempted at all, comes strictly after
it; and whenever the `_middleware` import fails, the `_exceptions`
one is never attempted and the load fails, so none of the three
exported names becomes bound in a package namespace. -/
theorem middleware_import_first (env : Env) (h : middlewareImportFails env) :
    (∀ env2 : Env,
      attemptedImports env2 = ["_middleware"] ∨
      attemptedImports env2 = ["_middleware", "_exceptions"]) ∧
    attemptedImports env = ["_middleware"] ∧
    ∀ ns, loadPackage env ≠ .ok ns := by
  have horder : ∀ env2 : Env,
      attemptedImports env2 = ["_middleware"] ∨
      attemptedImports env2 = ["_middleware", "_exceptions"] := by
    intro env2
    rcases hM : env2 "_middleware" with _ | smM
    · left; simp [attemptedImports, initStmts, execTrace, execStmt, hM]
    · rcases h1 : lookupDef smM.defs "JhalogMiddleware" with _ | i
      · left
        simp [attemptedImports, initStmts, execTrace, execStmt, importNames, hM, h1]
      · rcases h2 : lookupDef smM.defs "get_logger" with _ | j
        · left
          simp [attemptedImports, initStmts, execTrace, execStmt, importNames,
            hM, h1, h2]
        · right
          rcases hE : env2 "_exceptions" with _ | smE
          · simp [attemptedImports, initStmts, execTrace, execStmt, importNames,
              hM, h1, h2, hE]
          · rcases h3 : lookupDef smE.defs "HTTPException" with _ | k
            · simp [attemptedImports, initStmts, execTrace, execStmt, importNames,
                hM, h1, h2, hE, h3]
            · simp [attemptedImports, initStmts, execTrace, execStmt, importNames,
                hM, h1, h2, hE, h3]
  refine ⟨horder, ?_, ?_⟩
  · rcases h with h | ⟨sm, hs, h⟩
    · simp [attemptedImports, initStmts, execTrace, execStmt, h]
    · rcases h with h | h
      · simp [attemptedImports, initStmts, execTrace, execStmt, importNames, hs, h]
      · rcases h1 : lookupDef sm.defs "JhalogMiddleware" with _ | i
        · simp [attemptedImports, initStmts, execTrace, execStmt, importNames,
            hs, h1]
        · simp [attemptedImports, initStmts, execTrace, execStmt, importNames,
            hs, h1, h]
  · intro ns hok
    obtain ⟨smM, smE, i, j, k, hM, _, h1, h2, _, _⟩ :=
      loadPackage_ok_shape env ns hok
    rcases h with h | ⟨sm, hs, h⟩
    · rw [h] at hM; exact Option.noConfusion hM
    · rw [hM] at hs
      cases hs
      rcases h with h | h
      · rw [h] at h1; exact Option.noConfusion h1
      · rw [h] at h2; exact Option.noConfusion h2

/-- C9, witness: in the environment where no submodule is importable,
only the `_middleware` import is attempted and the load fails. -/
theorem middleware_import_first_witness :
    (∀ env2 : Env,
      attemptedImports env2 = ["_middleware"] ∨
      attemptedImports env2 = ["_middleware", "_exceptions"]) ∧
    attemptedImports envBad = ["_middleware"] ∧
    ∀ ns, loadPackage envBad ≠ .ok ns :=
  middleware_import_first envBad (Or.inl rfl)

/-- C10: the export list is consistent with the namespace: after every
successful load each name of `__all__` is bound in the package
namespace, and `__all__` contains no duplicate names. -/
theorem declaredAll_consistent (env : Env) (ns : NS)
    (h : loadPackage env = .ok ns) :
    declaredAll.Nodup ∧ ∀ n ∈ declaredAll, n ∈ nsNames ns := by
  obtain ⟨smM, smE, i, j, k, _, _, _, _, _, hns⟩ := loadPackage_ok_shape env ns h
  subst hns
  exact ⟨by decide, by intro n hn; fin_cases hn <;> simp [nsNames]⟩

/-- C10, witness at the concrete environment `envOK`. -/
theorem declaredAll_consistent_witness :
    declaredAll.Nodup ∧ ∀ n ∈ declaredAll, n ∈ nsNames nsOK :=
  declaredAll_consistent envOK nsOK rfl

end StarletteJhalog
